import Mathlib

/-!
Verification of the Stocks-AI dashboard (`src/app.py`) against its
specification.  The script is embedded shallowly: each function of the
source becomes a Lean definition over explicit data (the parsed JSON body,
the normalized table, the plotly figure state, the per-session state), and
the effectful calls (HTTP fetch, hosted text generation, pandas
floating-point number formatting) are abstracted as explicit parameters.
Line numbers in the doc comments refer to `src/app.py`.
-/

namespace StocksAI

/-- One element of the polygon.io aggregates `results` array: field `t`
(epoch milliseconds) and the short field codes o/h/l/c/v.  JSON numbers are
modelled as rationals, `t` as an integer of milliseconds. -/
structure ResultBar where
  t : Int
  o : ℚ
  h : ℚ
  l : ℚ
  c : ℚ
  v : ℚ
deriving DecidableEq

/-- The parsed JSON body of the quotes-provider response, as far as
`fetch_stocks_data` inspects it: the top-level `results` array when the key
is present, `none` when the key `results` is absent from the body
(error body, rate-limit message, unknown symbol). -/
structure PolygonBody where
  results : Option (List ResultBar)
deriving DecidableEq

/-- Conversion `pd.to_datetime(t, unit=ms)` of line 53: a pandas Timestamp
stores the instant as nanoseconds since the epoch, so `t` epoch
milliseconds becomes the instant `t * 1000000` epoch nanoseconds. -/
def toDatetimeMs (t : Int) : Int := t * 1000000

/-- One row of the normalized table, with the column set
timestamp, Open, High, Low, Close, Volume produced by lines 53-55. -/
structure Row where
  timestamp : Int
  Open : ℚ
  High : ℚ
  Low : ℚ
  Close : ℚ
  Volume : ℚ
deriving DecidableEq

/-- Per-element normalization performed by lines 52-55: `t` converted to a
timestamp, the codes o/h/l/c/v renamed to Open/High/Low/Close/Volume. -/
def barToRow (b : ResultBar) : Row :=
  { timestamp := toDatetimeMs b.t, Open := b.o, High := b.h,
    Low := b.l, Close := b.c, Volume := b.v }

/-- Response-processing part of `fetch_stocks_data` (lines 40-55).  When the
key `results` is absent the function reports the error and returns an empty
DataFrame (lines 48-50).  Otherwise it builds a DataFrame from the array,
converts column t and renames the code columns (lines 52-55); on a
present-but-empty `results` array the column access on line 53 raises a
pandas KeyError, modelled as `Except.error`. -/
def fetch_stocks_data (body : PolygonBody) : Except String (List Row) :=
  match body.results with
  | none => .ok []
  | some rs =>
      if rs.isEmpty then .error "KeyError: t"
      else .ok (rs.map barToRow)

/-- A plotly trace as `create_stock_chart` adds them: the constructor
arguments record the data series handed to the trace constructor and the
subplot cell (`row`, `col`) passed to `fig.add_trace`. -/
inductive Trace where
  | candlestick (x : List Int) (opens highs lows closes : List ℚ) (row col : Nat)
  | bar (x : List Int) (y : List ℚ) (row col : Nat)
deriving DecidableEq

/-- The subplot row a trace was added to. -/
def Trace.rowIndex : Trace → Nat
  | .candlestick _ _ _ _ _ r _ => r
  | .bar _ _ r _ => r

/-- In a `make_subplots` figure with one column, a trace added to subplot
row r is drawn against the y-axis of that row; we identify each y-axis by
its row number. -/
def Trace.yaxisIndex (t : Trace) : Nat := t.rowIndex

/-- The x-series of a trace. -/
def Trace.xdata : Trace → List Int
  | .candlestick x _ _ _ _ _ _ => x
  | .bar x _ _ _ => x

/-- The plotly figure state touched by `create_stock_chart` (lines 57-76). -/
structure Figure where
  rows : Nat
  cols : Nat
  shared_xaxes : Bool
  vertical_spacing : ℚ
  subplot_titles : List String
  row_heights : List ℚ
  traces : List Trace
  height : Nat
  title_text : String
  xaxis_rangeslider_visible : Bool
deriving DecidableEq

/-- Embedding of `create_stock_chart` (lines 57-76): `make_subplots` with two
rows sharing the x-axes and heights 0.7/0.3, a candlestick trace of
Open/High/Low/Close added to row 1, a Volume bar trace added to row 2, and a
layout update that disables the x-axis range slider.  The candlestick
range slider defaults to visible before the layout update. -/
def create_stock_chart (df : List Row) : Figure :=
  let fig : Figure :=
    { rows := 2, cols := 1, shared_xaxes := true, vertical_spacing := 1/10,
      subplot_titles := ["Stock Price", "Volume"],
      row_heights := [7/10, 3/10], traces := [], height := 0,
      title_text := "", xaxis_rangeslider_visible := true }
  let fig := { fig with traces := fig.traces ++
      [Trace.candlestick (df.map Row.timestamp) (df.map Row.Open)
        (df.map Row.High) (df.map Row.Low) (df.map Row.Close) 1 1] }
  let fig := { fig with traces := fig.traces ++
      [Trace.bar (df.map Row.timestamp) (df.map Row.Volume) 2 1] }
  { fig with
      height := 600
      title_text := "Stock Data (Last 30 Days)"
      xaxis_rangeslider_visible := false }

/-- Concatenation of a list of strings, used to assemble rendered text line
by line. -/
def strJoin : List String → String
  | [] => ""
  | s :: rest => s ++ strJoin rest

/-- Row labels of the pandas `describe()` summary-statistics table: count,
mean, standard deviation, min, the three quartiles, max. -/
def statLabels : List String := ["count", "mean", "std", "min", "25%", "50%", "75%", "max"]

/-- The numeric columns of the normalized table (the timestamp column is a
datetime column, the five price/volume columns are numeric). -/
def numericCols : List String := ["Open", "High", "Low", "Close", "Volume"]

/-- One rendered line of `df.describe().to_string()`: the statistic label
followed by one formatted value per numeric column.  pandas computes the
statistics in IEEE-754 floating point and formats them; both are abstracted
as the parameter `render` (statistic label and column name to printed
value). -/
def statLine (render : String → String → String) (lbl : String) : String :=
  lbl ++ strJoin (numericCols.map (fun c => "  " ++ render lbl c)) ++ "\n"

/-- Structural model of `df.describe().to_string()` (line 85): a header line
naming the numeric columns, then one line per summary statistic. -/
def describeToString (render : String → String → String) : String :=
  strJoin (numericCols.map (fun c => "  " ++ c)) ++ "\n" ++
    strJoin (statLabels.map (statLine render))

/-- Pandas `df.tail()`: the last 5 rows of the table. -/
def tail5 (df : List Row) : List Row := df.drop (df.length - 5)

/-- Structural model of the rendering on line 88 (the tail of the
timestamp/Close projection, printed without index): a header line, then one
line per recent row carrying its printed timestamp and Close value; number
and timestamp formatting are abstracted as `renderTs` and `renderVal`. -/
def tailToString (renderTs : Int → String) (renderVal : ℚ → String)
    (df : List Row) : String :=
  "timestamp  Close\n" ++
    strJoin ((tail5 df).map
      (fun r => renderTs r.timestamp ++ "  " ++ renderVal r.Close ++ "\n"))

/-- The f-string `context` of lines 80-91, with the two rendered pandas
blocks passed in as `describeStr` and `tailStr`. -/
def makeContext (symbol prompt describeStr tailStr : String) : String :=
  "\n        Stock: " ++ symbol ++
  "\n        Date range: " ++ "Last 30 days" ++
  "\n\n        Data summary:\n        " ++ describeStr ++
  "\n\n        Recent price movements:\n        " ++ tailStr ++
  "\n\n        User question: " ++ prompt ++
  "\n        "

/-- The full prompt block `get_ai_insights` builds for a given table, symbol
and question. -/
def insightContext (render : String → String → String) (renderTs : Int → String)
    (renderVal : ℚ → String) (df : List Row) (symbol prompt : String) : String :=
  makeContext symbol prompt (describeToString render)
    (tailToString renderTs renderVal df)

/-- Embedding of `get_ai_insights` (lines 78-100).  The hosted call
`model.generate_content(context)` is abstracted as the parameter `generate`:
`Except.error e` models the call raising an exception rendered as `e`, and
`Except.ok t` models a response whose text attribute is `t` (the empty
string models a falsy response text). -/
def get_ai_insights (generate : String → Except String String)
    (render : String → String → String) (renderTs : Int → String)
    (renderVal : ℚ → String) (df : List Row) (symbol prompt : String) : String :=
  match generate (insightContext render renderTs renderVal df symbol prompt) with
  | .error e => "An error occurred while getting AI insights: " ++ e
  | .ok t =>
      if t = "" then
        "The AI model didn\x27t provide a response. Please try asking a different question."
      else t

/-- The secrets store `st.secrets`: a partial map from secret names to
values; `none` models a key whose lookup raises KeyError. -/
def Secrets : Type := String → Option String

/-- Embedding of `get_api_key` (lines 18-32): return the stored secret, or on
KeyError show the error message and setup instructions and halt the page via
`st.stop()`, modelled as `Except.error ()`. -/
def get_api_key (secrets : Secrets) (key_name : String) : Except Unit String :=
  match secrets key_name with
  | some v => .ok v
  | none => .error ()

/-- The two module-level secret values loaded on lines 34-35. -/
structure Config where
  gemini_api_key : String
  polygon_api_key : String
deriving DecidableEq

/-- Lines 34-35: both keys are loaded at startup, in order, before anything
else runs. -/
def startupKeys (secrets : Secrets) : Except Unit Config :=
  match get_api_key secrets "gemini_api" with
  | .error e => .error e
  | .ok g =>
      match get_api_key secrets "stocks_api" with
      | .error e => .error e
      | .ok p => .ok { gemini_api_key := g, polygon_api_key := p }

/-- The whole script run: the key loads of lines 34-35 happen first, and
`rest` — standing for everything after them (model configuration, `main()`,
every fetch and every insight call) — runs only when both loads succeed. -/
def runScript {α : Type} (secrets : Secrets) (rest : Config → α) : Except Unit α :=
  (startupKeys secrets).map rest

/-- The per-session state initialized on lines 11-14: the last fetched table
(`none` until a first fetch completes) and the last entered symbol. -/
structure SessionState where
  data : Option (List Row)
  symbol : String
deriving DecidableEq

/-- Lines 154-155: a completed fetch stores the normalized table in the
session, replacing whatever table was stored before; a fetch that raises
leaves the session unchanged. -/
def fetchStep (s : SessionState) (body : PolygonBody) : Except String SessionState :=
  (fetch_stocks_data body).map (fun rows => { s with data := some rows })

/-- What the body of `main` renders for a given stored table (lines
157-184). -/
inductive DisplayAction where
  | showChart (fig : Figure)
  | noDataMessage
  | nothing
deriving DecidableEq

/-- The branching of lines 157-184: the chart (and table, and the insight
controls) is rendered only when a table is stored and non-empty; a stored
empty table yields the no-data message of line 184; before any fetch nothing
is rendered. -/
def displayStep (data : Option (List Row)) : DisplayAction :=
  match data with
  | some df => if df.isEmpty then .noDataMessage else .showChart (create_stock_chart df)
  | none => .nothing

/-- What a click of the insight-request trigger does. -/
inductive InsightAction where
  | providerCall (question : String)
  | warn
deriving DecidableEq

/-- Lines 175-182: `if prompt:` — Python truthiness of a string is
non-emptiness — leads to the `get_ai_insights` call with that prompt;
otherwise `st.warning` is shown and no call is made. -/
def insightButtonClick (prompt : String) : InsightAction :=
  if prompt = "" then .warn else .providerCall prompt

/-- Python `str.upper()` on the entered ticker: uppercase each character. -/
def pyUpper (s : String) : String := ⟨s.data.map Char.toUpper⟩

/-- Lines 145-150, the Other branch of the symbol picker: a truthy
(non-empty) entry in the custom-symbol box stores its uppercase form in the
session; an empty entry leaves the session untouched. -/
def otherSymbolStep (s : SessionState) (custom : String) : SessionState :=
  if custom = "" then s else { s with symbol := pyUpper custom }

/-- Substring containment: `hay` contains `pat` as a contiguous substring. -/
def strContains (hay pat : String) : Bool := decide (pat.data <:+: hay.data)

/-- Modelled from the spec: the free-text search-filter-by-timestamp box is
listed among the user-facing controls of the spec but is absent from the one
source file `src/app.py`; per the spec, filtering keeps exactly the rows
whose timestamp contains the filter text as a substring. -/
def filterByTimestamp (filterText : String) (timestamps : List String) : List String :=
  timestamps.filter (fun ts => strContains ts filterText)

/-- The question is empty or consists only of whitespace characters. -/
def isWhitespaceOnly (s : String) : Bool := s.data.all Char.isWhitespace

/-- Substring containment unfolds to infix containment of character lists. -/
theorem strContains_iff (hay pat : String) :
    strContains hay pat = true ↔ pat.data <:+: hay.data := by
  simp [strContains]

/-- Infix containment is preserved by prepending a list. -/
theorem isInfixAppendLeft {α : Type} {l r : List α} (a : List α)
    (h : l <:+: r) : l <:+: a ++ r := by
  obtain ⟨s, t, rfl⟩ := h
  exact ⟨a ++ s, t, by simp⟩

/-- A list is an infix of itself followed by anything. -/
theorem isInfixHead {α : Type} (l r : List α) : l <:+: l ++ r := ⟨[], r, by simp⟩

/-- Character data of a joined concatenation splits along the append. -/
theorem strJoin_data_append (l₁ l₂ : List String) :
    (strJoin (l₁ ++ l₂)).data = (strJoin l₁).data ++ (strJoin l₂).data := by
  induction l₁ with
  | nil => simp [strJoin]
  | cons s rest ih => simp [strJoin, String.data_append, ih, List.append_assoc]

/-- Each member of a mapped list contributes a contiguous block to the
joined rendering. -/
theorem strJoin_map_mem_split {α : Type} (f : α → String) {a : α} {l : List α}
    (h : a ∈ l) :
    ∃ pre post : List Char,
      (strJoin (l.map f)).data = pre ++ ((f a).data ++ post) := by
  obtain ⟨s, t, rfl⟩ := List.append_of_mem h
  refine ⟨(strJoin (s.map f)).data, (strJoin (t.map f)).data, ?_⟩
  rw [List.map_append, strJoin_data_append]
  simp [strJoin, String.data_append, List.append_assoc]

/-- C1: for a well-formed provider-B body whose `results` array is
non-empty, the normalizer succeeds and returns exactly one row per array
element, in input order, each row obtained by renaming o/h/l/c/v to
Open/High/Low/Close/Volume and converting t from epoch milliseconds. -/
theorem C1_provider_b_normalization (rs : List ResultBar) (hne : rs ≠ []) :
    ∃ out : List Row,
      fetch_stocks_data { results := some rs } = .ok out ∧
      out.length = rs.length ∧
      ∀ i : Nat, out[i]? = (rs[i]?).map (fun b =>
        ({ timestamp := toDatetimeMs b.t, Open := b.o, High := b.h,
           Low := b.l, Close := b.c, Volume := b.v } : Row)) := by
  refine ⟨rs.map barToRow, ?_, List.length_map rs barToRow, fun i => ?_⟩
  · cases rs with
    | nil => exact absurd rfl hne
    | cons b bs => simp [fetch_stocks_data]
  · rw [List.getElem?_map barToRow rs i]
    rfl

/-- C1 witness: the spec example input, one bar with t epoch milliseconds
1700000000000 and o/h/l/c/v = 10/12/9/11/1000, yields exactly one row with
Open 10, High 12, Low 9, Close 11, Volume 1000 and the millisecond-converted
timestamp. -/
theorem C1_provider_b_normalization_witness :
    ∃ out : List Row,
      fetch_stocks_data
          { results := some [⟨1700000000000, 10, 12, 9, 11, 1000⟩] } = .ok out ∧
      out.length = 1 ∧
      out[0]? = some ⟨1700000000000000000, 10, 12, 9, 11, 1000⟩ := by
  obtain ⟨out, h1, h2, h3⟩ :=
    C1_provider_b_normalization [⟨1700000000000, 10, 12, 9, 11, 1000⟩] (by simp)
  refine ⟨out, h1, h2, ?_⟩
  rw [h3 0]
  decide

/-- C2: a body without the `results` key normalizes to the empty table
without raising, the caller renders the no-data message when the stored
table is empty, and the chart builder is invoked only on a non-empty stored
table. -/
theorem C2_missing_results (body : PolygonBody) (h : body.results = none) :
    fetch_stocks_data body = .ok [] ∧
    displayStep (some []) = .noDataMessage ∧
    ∀ (d : Option (List Row)) (fig : Figure), displayStep d = .showChart fig →
      ∃ df : List Row, d = some df ∧ df ≠ [] ∧ fig = create_stock_chart df := by
  refine ⟨by simp [fetch_stocks_data, h], rfl, ?_⟩
  intro d fig hshow
  cases d with
  | none => simp [displayStep] at hshow
  | some df =>
    cases hdf : df.isEmpty with
    | true => simp [displayStep, hdf] at hshow
    | false =>
      simp [displayStep, hdf] at hshow
      refine ⟨df, rfl, ?_, hshow.symm⟩
      intro hnil
      subst hnil
      simp at hdf

/-- C2 witness: the concrete body with no `results` key. -/
theorem C2_missing_results_witness :
    fetch_stocks_data { results := none } = .ok [] ∧
    displayStep (some []) = DisplayAction.noDataMessage :=
  ⟨(C2_missing_results { results := none } rfl).1,
   (C2_missing_results { results := none } rfl).2.1⟩

/-- C3: on a non-empty table the chart has exactly two stacked traces with a
shared x-axis domain and identical x data — the Open/High/Low/Close
candlestick on row 1 at height 0.7 and the Volume bars on row 2 at height
0.3 — the x-axis range slider is disabled, and the bars sit on the second
row y-axis, never on the candlestick y-axis. -/
theorem C3_chart_layout (df : List Row) (hne : df ≠ []) :
    (create_stock_chart df).rows = 2 ∧
    (create_stock_chart df).cols = 1 ∧
    (create_stock_chart df).shared_xaxes = true ∧
    (create_stock_chart df).row_heights = [7/10, 3/10] ∧
    (create_stock_chart df).xaxis_rangeslider_visible = false ∧
    (create_stock_chart df).traces =
      [Trace.candlestick (df.map Row.timestamp) (df.map Row.Open)
        (df.map Row.High) (df.map Row.Low) (df.map Row.Close) 1 1,
       Trace.bar (df.map Row.timestamp) (df.map Row.Volume) 2 1] ∧
    (create_stock_chart df).traces.map Trace.xdata =
      [df.map Row.timestamp, df.map Row.timestamp] ∧
    (create_stock_chart df).traces.map Trace.yaxisIndex = [1, 2] :=
  ⟨rfl, rfl, rfl, rfl, rfl, rfl, rfl, rfl⟩

/-- C3 witness: a concrete one-row table. -/
theorem C3_chart_layout_witness :
    (create_stock_chart [⟨0, 1, 2, 1, 1, 5⟩]).xaxis_rangeslider_visible = false ∧
    (create_stock_chart [⟨0, 1, 2, 1, 1, 5⟩]).traces.map Trace.yaxisIndex = [1, 2] := by
  have h := C3_chart_layout [⟨0, 1, 2, 1, 1, 5⟩] (by simp)
  exact ⟨h.2.2.2.2.1, h.2.2.2.2.2.2.2⟩

/-- C4: the insight request never propagates an exception — a raised error
comes back as the caught error text, an empty response text comes back as
the explicit fallback message, and a non-empty response text is returned
literally. -/
theorem C4_insights_never_raise (generate : String → Except String String)
    (render : String → String → String) (renderTs : Int → String)
    (renderVal : ℚ → String) (df : List Row) (symbol prompt : String) :
    (∀ e, generate (insightContext render renderTs renderVal df symbol prompt) = .error e →
      get_ai_insights generate render renderTs renderVal df symbol prompt =
        "An error occurred while getting AI insights: " ++ e) ∧
    (generate (insightContext render renderTs renderVal df symbol prompt) = .ok "" →
      get_ai_insights generate render renderTs renderVal df symbol prompt =
        "The AI model didn\x27t provide a response. Please try asking a different question.") ∧
    (∀ t, generate (insightContext render renderTs renderVal df symbol prompt) = .ok t →
      t ≠ "" →
      get_ai_insights generate render renderTs renderVal df symbol prompt = t) := by
  refine ⟨fun e he => ?_, fun h0 => ?_, fun t ht hnet => ?_⟩
  · simp [get_ai_insights, he]
  · simp [get_ai_insights, h0]
  · simp [get_ai_insights, ht, hnet]

/-- C4 witness: one raising call, one empty response, one literal answer. -/
theorem C4_insights_never_raise_witness :
    get_ai_insights (fun _ => .error "boom") (fun _ _ => "s") (fun _ => "ts")
      (fun _ => "v") [] "AAPL" "why" =
      "An error occurred while getting AI insights: boom" ∧
    get_ai_insights (fun _ => .ok "") (fun _ _ => "s") (fun _ => "ts")
      (fun _ => "v") [] "AAPL" "why" =
      "The AI model didn\x27t provide a response. Please try asking a different question." ∧
    get_ai_insights (fun _ => .ok "fine") (fun _ _ => "s") (fun _ => "ts")
      (fun _ => "v") [] "AAPL" "why" = "fine" :=
  ⟨(C4_insights_never_raise _ _ _ _ _ _ _).1 "boom" rfl,
   (C4_insights_never_raise _ _ _ _ _ _ _).2.1 rfl,
   (C4_insights_never_raise _ _ _ _ _ _ _).2.2 "fine" rfl (by decide)⟩

/-- C5: a missing secret halts the script before anything after the key
loads runs (so before any fetch or insight call); when both keys are
present, each is returned unchanged and the rest of the script runs with
the stored values. -/
theorem C5_missing_secret_halts (secrets : Secrets) :
    (∀ (α : Type) (rest : Config → α),
      secrets "gemini_api" = none ∨ secrets "stocks_api" = none →
      runScript secrets rest = .error ()) ∧
    (∀ g p, secrets "gemini_api" = some g → secrets "stocks_api" = some p →
      get_api_key secrets "gemini_api" = .ok g ∧
      get_api_key secrets "stocks_api" = .ok p ∧
      ∀ (α : Type) (rest : Config → α),
        runScript secrets rest =
          .ok (rest { gemini_api_key := g, polygon_api_key := p })) := by
  constructor
  · intro α rest h
    rcases h with h | h
    · simp [runScript, startupKeys, get_api_key, h, Except.map]
    · cases hg : secrets "gemini_api" <;>
        simp [runScript, startupKeys, get_api_key, h, hg, Except.map]
  · intro g p hg hp
    refine ⟨by simp [get_api_key, hg], by simp [get_api_key, hp], fun α rest => ?_⟩
    simp [runScript, startupKeys, get_api_key, hg, hp, Except.map]

/-- C5 witness: a store missing the quotes key halts; a full store yields
both values. -/
theorem C5_missing_secret_halts_witness :
    runScript (fun k => if k = "gemini_api" then some "G" else none)
      (fun _ : Config => (0 : Nat)) = .error () ∧
    runScript (fun k => if k = "gemini_api" then some "G" else
        if k = "stocks_api" then some "P" else none)
      (fun c : Config => c.polygon_api_key) = .ok "P" := by
  constructor
  · exact (C5_missing_secret_halts _).1 Nat _ (Or.inr (by decide))
  · exact ((C5_missing_secret_halts _).2 "G" "P" (by decide) (by decide)).2.2 String _

/-- C6 counterexample: the one-space question consists only of whitespace,
yet the click handler submits it to the provider instead of warning, because
the code tests Python truthiness (non-emptiness), not whitespace-trimmed
emptiness. -/
theorem C6_counterexample :
    isWhitespaceOnly " " = true ∧
    insightButtonClick " " = InsightAction.providerCall " " ∧
    insightButtonClick " " ≠ InsightAction.warn := by
  decide

/-- C6 amended: the warning (and no provider call) happens exactly for the
empty question; every non-empty question, whitespace-only ones included, is
submitted to the provider. -/
theorem C6_amended_empty_only (prompt : String) :
    (prompt = "" → insightButtonClick prompt = InsightAction.warn) ∧
    (prompt ≠ "" → insightButtonClick prompt = InsightAction.providerCall prompt) := by
  constructor <;> intro h <;> simp [insightButtonClick, h]

/-- C6 amended witness: the empty question warns, the one-space question is
submitted. -/
theorem C6_amended_empty_only_witness :
    insightButtonClick "" = InsightAction.warn ∧
    insightButtonClick " " = InsightAction.providerCall " " :=
  ⟨(C6_amended_empty_only "").1 rfl, (C6_amended_empty_only " ").2 (by decide)⟩

/-- C7: filtering keeps exactly the rows whose timestamp contains the filter
text; on the spec example, timestamps 2024-01-01 09:30 and 2024-01-02 09:30
filtered by 01-01 keep exactly the first row. -/
theorem C7_timestamp_filter :
    filterByTimestamp "01-01" ["2024-01-01 09:30", "2024-01-02 09:30"] =
      ["2024-01-01 09:30"] ∧
    ∀ (q t : String) (ts : List String),
      t ∈ filterByTimestamp q ts ↔ t ∈ ts ∧ strContains t q = true := by
  refine ⟨by decide, fun q t ts => ?_⟩
  simp [filterByTimestamp, List.mem_filter]

/-- C8: the prompt block contains the symbol, the date-range text, every
summary-statistic label and every numeric column name of the describe
table, the recent-Close block with each recent row printed timestamp and
Close value, and the user question; and the whole block is submitted as the
one prompt of the single text-generation call. -/
theorem C8_prompt_block (render : String → String → String) (renderTs : Int → String)
    (renderVal : ℚ → String) (df : List Row) (symbol prompt : String) :
    strContains (insightContext render renderTs renderVal df symbol prompt) symbol = true ∧
    strContains (insightContext render renderTs renderVal df symbol prompt) "Last 30 days" = true ∧
    (∀ lbl, lbl ∈ statLabels →
      strContains (insightContext render renderTs renderVal df symbol prompt) lbl = true) ∧
    (∀ col, col ∈ numericCols →
      strContains (insightContext render renderTs renderVal df symbol prompt) col = true) ∧
    strContains (insightContext render renderTs renderVal df symbol prompt)
      (tailToString renderTs renderVal df) = true ∧
    (∀ r, r ∈ tail5 df →
      strContains (insightContext render renderTs renderVal df symbol prompt)
        (renderTs r.timestamp) = true ∧
      strContains (insightContext render renderTs renderVal df symbol prompt)
        (renderVal r.Close) = true) ∧
    strContains (insightContext render renderTs renderVal df symbol prompt) prompt = true ∧
    (∀ g₁ g₂ : String → Except String String,
      g₁ (insightContext render renderTs renderVal df symbol prompt) =
        g₂ (insightContext render renderTs renderVal df symbol prompt) →
      get_ai_insights g₁ render renderTs renderVal df symbol prompt =
        get_ai_insights g₂ render renderTs renderVal df symbol prompt) := by
  refine ⟨?_, ?_, ?_, ?_, ?_, ?_, ?_, ?_⟩
  · rw [strContains_iff]
    simp only [insightContext, makeContext, String.data_append, List.append_assoc]
    repeat first | exact isInfixHead _ _ | apply isInfixAppendLeft
  · rw [strContains_iff]
    simp only [insightContext, makeContext, String.data_append, List.append_assoc]
    repeat first | exact isInfixHead _ _ | apply isInfixAppendLeft
  · intro lbl hl
    obtain ⟨pre, post, hsplit⟩ := strJoin_map_mem_split (statLine render) hl
    rw [strContains_iff]
    simp only [insightContext, makeContext, describeToString, String.data_append,
      List.append_assoc]
    rw [hsplit]
    simp only [statLine, String.data_append, List.append_assoc]
    repeat first | exact isInfixHead _ _ | apply isInfixAppendLeft
  · intro col hcol
    obtain ⟨pre, post, hsplit⟩ := strJoin_map_mem_split (fun c => "  " ++ c) hcol
    rw [strContains_iff]
    simp only [insightContext, makeContext, describeToString, String.data_append,
      List.append_assoc]
    rw [hsplit]
    simp only [String.data_append, List.append_assoc]
    repeat first | exact isInfixHead _ _ | apply isInfixAppendLeft
  · rw [strContains_iff]
    simp only [insightContext, makeContext, String.data_append, List.append_assoc]
    repeat first | exact isInfixHead _ _ | apply isInfixAppendLeft
  · intro r hr
    obtain ⟨pre, post, hsplit⟩ := strJoin_map_mem_split
      (fun r => renderTs r.timestamp ++ "  " ++ renderVal r.Close ++ "\n") hr
    constructor
    · rw [strContains_iff]
      simp only [insightContext, makeContext, tailToString, String.data_append,
        List.append_assoc]
      rw [hsplit]
      simp only [String.data_append, List.append_assoc]
      repeat first | exact isInfixHead _ _ | apply isInfixAppendLeft
    · rw [strContains_iff]
      simp only [insightContext, makeContext, tailToString, String.data_append,
        List.append_assoc]
      rw [hsplit]
      simp only [String.data_append, List.append_assoc]
      repeat first | exact isInfixHead _ _ | apply isInfixAppendLeft
  · rw [strContains_iff]
    simp only [insightContext, makeContext, String.data_append, List.append_assoc]
    repeat first | exact isInfixHead _ _ | apply isInfixAppendLeft
  · intro g₁ g₂ hg
    simp only [get_ai_insights, hg]

/-- C8 witness: concrete renderers, symbol and question. -/
theorem C8_prompt_block_witness :
    strContains (insightContext (fun _ _ => "0.1") (fun _ => "T") (fun _ => "V")
      [] "AAPL" "why") "AAPL" = true ∧
    strContains (insightContext (fun _ _ => "0.1") (fun _ => "T") (fun _ => "V")
      [] "AAPL" "why") "std" = true := by
  have h := C8_prompt_block (fun _ _ => "0.1") (fun _ => "T") (fun _ => "V") [] "AAPL" "why"
  exact ⟨h.1, h.2.2.1 "std" (by decide)⟩

/-- C9: a completed fetch stores exactly the normalizer output in the
session, replacing whatever table was stored before, whatever it was. -/
theorem C9_fetch_replaces (body : PolygonBody) (rows : List Row)
    (h : fetch_stocks_data body = .ok rows) :
    ∀ (prevData : Option (List Row)) (sym : String),
      fetchStep { data := prevData, symbol := sym } body =
        .ok { data := some rows, symbol := sym } := by
  intro prevData sym
  simp [fetchStep, h, Except.map]

/-- C9 witness: a fetch over a previously stored table replaces it. -/
theorem C9_fetch_replaces_witness :
    fetchStep { data := some [⟨0, 1, 1, 1, 1, 1⟩], symbol := "MSFT" }
        { results := some [⟨1700000000000, 10, 12, 9, 11, 1000⟩] } =
      .ok { data := some [⟨1700000000000000000, 10, 12, 9, 11, 1000⟩],
            symbol := "MSFT" } :=
  C9_fetch_replaces _ _ (by rfl) _ _

/-- C10: a non-empty custom entry in the Other branch stores its uppercase
form in the session; an empty entry leaves the session unchanged. -/
theorem C10_other_symbol (s : SessionState) (custom : String) :
    (custom ≠ "" → otherSymbolStep s custom = { s with symbol := pyUpper custom }) ∧
    (custom = "" → otherSymbolStep s custom = s) := by
  constructor <;> intro h <;> simp [otherSymbolStep, h]

/-- C10 witness: entering msft stores MSFT; entering nothing keeps AAPL. -/
theorem C10_other_symbol_witness :
    otherSymbolStep { data := none, symbol := "AAPL" } "msft" =
      { data := none, symbol := "MSFT" } ∧
    otherSymbolStep { data := none, symbol := "AAPL" } "" =
      { data := none, symbol := "AAPL" } := by
  constructor
  · rw [(C10_other_symbol { data := none, symbol := "AAPL" } "msft").1 (by decide)]
    decide
  · exact (C10_other_symbol { data := none, symbol := "AAPL" } "").2 rfl

end StocksAI
